import Mathlib

/-!
Verification of the compaction planning and commit engine of `influxdb_iox`
(compactor / compactor2 crates), shallowly embedded in Lean.

The embedding follows the Rust sources:
  * `compactor/src/components/commit.rs` (`CommitToScheduler::commit`),
  * `compactor2/src/components/files_split/all_at_once_non_overlap_split.rs`
    (`AllAtOnceNonOverlapSplit::apply`),
  * `compactor/src/components/partition_stream/once.rs`
    (`OncePartititionStream::stream`),
  * `compactor/src/components/partition_done_sink/mod.rs`
    (`PartitionDoneSink` trait and its blanket impl for `Arc<T>`).
Parts of the repository that these components call into but whose sources are
not available here (the `compactor_scheduler` crate's catalog transaction, the
`PartitionsSource` trait, the retrying `PartitionDoneSink` implementations) are
modelled from the specification and marked as such in their doc comments.
-/

namespace IoxCompactor

/-- Rust `data_types::PartitionId` — newtype over `i64`. -/
structure PartitionId where
  id : Int
deriving DecidableEq, Repr

/-- Rust `data_types::ParquetFileId` — newtype over `i64`. -/
structure ParquetFileId where
  id : Int
deriving DecidableEq, Repr

/-- Rust `data_types::CompactionLevel` — `Initial`, `FileNonOverlapped`, `Final`. -/
inductive CompactionLevel where
  | Initial
  | FileNonOverlapped
  | Final
deriving DecidableEq, Repr

/-- Rust `data_types::ParquetFile` — persisted file metadata.  The fields used by
the compaction core: identifier, owning partition, time range, size and row
count, and compaction level. -/
structure ParquetFile where
  id : ParquetFileId
  partitionId : PartitionId
  minTime : Int
  maxTime : Int
  fileSizeBytes : Int
  rowCount : Int
  compactionLevel : CompactionLevel
deriving DecidableEq, Repr

/-- Rust `data_types::ParquetFileParams` — the not-yet-persisted description of a
file about to be created: the same attributes as `ParquetFile` minus the
identifier. -/
structure ParquetFileParams where
  partitionId : PartitionId
  minTime : Int
  maxTime : Int
  fileSizeBytes : Int
  rowCount : Int
  compactionLevel : CompactionLevel
deriving DecidableEq, Repr

/-- Rust `compactor_scheduler::CompactionJob` — a unit of work bound to exactly one
partition (`CompactionJob::new(partition_id)`). -/
structure CompactionJob where
  partitionId : PartitionId
deriving DecidableEq, Repr

def CompactionJob.new (partitionId : PartitionId) : CompactionJob :=
  { partitionId := partitionId }

/-- Rust `compactor_scheduler::CommitUpdate` — the atomic delta for one partition:
files to delete, files to upgrade in place, parameters of files to create, and
the target level. -/
structure CommitUpdate where
  partitionId : PartitionId
  delete : List ParquetFile
  upgrade : List ParquetFile
  create : List ParquetFileParams
  targetLevel : CompactionLevel
deriving DecidableEq, Repr

def CommitUpdate.new (partitionId : PartitionId) (delete upgrade : List ParquetFile)
    (create : List ParquetFileParams) (targetLevel : CompactionLevel) : CommitUpdate :=
  { partitionId := partitionId, delete := delete, upgrade := upgrade,
    create := create, targetLevel := targetLevel }

/-- Rust `compactor_scheduler::CompactionJobStatusVariant` — the commit path uses
only the `Update(CommitUpdate)` variant; the other administrative variants are
out of this core's scope. -/
inductive CompactionJobStatusVariant where
  | Update (update : CommitUpdate)
deriving DecidableEq, Repr

/-- Rust `compactor_scheduler::CompactionJobStatus` — a job together with a status
variant, submitted to the Scheduler. -/
structure CompactionJobStatus where
  job : CompactionJob
  status : CompactionJobStatusVariant
deriving DecidableEq, Repr

/-- Rust `compactor_scheduler::CompactionJobStatusResponse` — either the
identifiers assigned to newly created files, or a plain acknowledgement. -/
inductive CompactionJobStatusResponse where
  | CreatedParquetFiles (ids : List ParquetFileId)
  | Ack
deriving DecidableEq, Repr

/-- Rust `compactor::DynError` (`Box<dyn Error + Send + Sync>`) — an opaque error
value, modelled as a numeric code. -/
structure DynError where
  code : Nat
deriving DecidableEq, Repr

/-! ## Commit engine (`compactor/src/components/commit.rs`)

`CommitToScheduler::commit` performs exactly one asynchronous call to
`Scheduler::update_job_status`, propagates its error with `?`, and matches on
the response.  To reason about the number and contents of scheduler calls, the
method body is embedded as an interaction program (`SchedulerProg`): a value of
this type either returns, or performs one scheduler call and continues with the
response.  `unreachable!` is modelled as the distinguished `CommitResult.fatal`
outcome, separate from the recoverable `err` constructor. -/

/-- The outcome of `CommitToScheduler::commit`: a normal return of the
assigned identifiers, a propagated scheduler error (the `?` operator), or the
`unreachable!("scheduler should not ack")` abort. -/
inductive CommitResult where
  | ok (ids : List ParquetFileId)
  | err (e : DynError)
  | fatal
deriving DecidableEq, Repr

/-- An interaction program against the Scheduler: `pure` returns, `call`
submits one `CompactionJobStatus` and continues with the scheduler's
`Result<CompactionJobStatusResponse, DynError>`. -/
inductive SchedulerProg (α : Type) where
  | pure (a : α)
  | call (req : CompactionJobStatus)
      (k : Except DynError CompactionJobStatusResponse → SchedulerProg α)

/-- A Scheduler, as seen through `update_job_status`: a (deterministic)
response to each request. -/
def Scheduler : Type :=
  CompactionJobStatus → Except DynError CompactionJobStatusResponse

/-- Run an interaction program against a scheduler, returning its result. -/
def SchedulerProg.run (scheduler : Scheduler) : SchedulerProg α → α
  | .pure a => a
  | .call req k => (k (scheduler req)).run scheduler

/-- The requests an interaction program sends to a scheduler, in order. -/
def SchedulerProg.calls (scheduler : Scheduler) : SchedulerProg α → List CompactionJobStatus
  | .pure _ => []
  | .call req k => req :: (k (scheduler req)).calls scheduler

/-- The single request `commit` builds: a `CompactionJobStatus` for a fresh
`CompactionJob` on the partition, whose status is the one `CommitUpdate`
holding `delete`, `upgrade`, `create` and `target_level`. -/
def commitRequest (partitionId : PartitionId) (delete upgrade : List ParquetFile)
    (create : List ParquetFileParams) (targetLevel : CompactionLevel) :
    CompactionJobStatus :=
  { job := CompactionJob.new partitionId,
    status := .Update (CommitUpdate.new partitionId delete upgrade create targetLevel) }

/-- The body of `CommitToScheduler::commit` as an interaction program: one
`update_job_status` call, `?` on its error, then a match on the response where
`CreatedParquetFiles(ids)` returns `Ok(ids)` and `Ack` is `unreachable!`. -/
def commitProg (partitionId : PartitionId) (delete upgrade : List ParquetFile)
    (create : List ParquetFileParams) (targetLevel : CompactionLevel) :
    SchedulerProg CommitResult :=
  .call (commitRequest partitionId delete upgrade create targetLevel) fun response =>
    match response with
    | .error e => .pure (.err e)
    | .ok (.CreatedParquetFiles ids) => .pure (.ok ids)
    | .ok .Ack => .pure .fatal

/-- Rust `CommitToScheduler::commit`, run against a scheduler. -/
def CommitToScheduler.commit (scheduler : Scheduler) (partitionId : PartitionId)
    (delete upgrade : List ParquetFile) (create : List ParquetFileParams)
    (targetLevel : CompactionLevel) : CommitResult :=
  (commitProg partitionId delete upgrade create targetLevel).run scheduler

/-! ## Scheduler-side catalog transaction (modelled from the spec)

The `compactor_scheduler` crate that owns the authoritative catalog
transaction is not among the available sources; its behaviour is modelled from
the specification (§4.3 Atomicity, §3 `CommitUpdate`, §8 properties 4 and 5). -/

/-- Modelled from the spec: the catalog's file set for one partition, plus the
next identifier the catalog will assign.  Missing source: the
`compactor_scheduler` crate's catalog transaction. -/
structure Catalog where
  files : List ParquetFile
  nextId : Int
deriving DecidableEq, Repr

/-- A `ParquetFile` built from `ParquetFileParams` once an identifier is
assigned, at the commit's target level. -/
def ParquetFileParams.withId (p : ParquetFileParams) (id : ParquetFileId)
    (targetLevel : CompactionLevel) : ParquetFile :=
  { id := id, partitionId := p.partitionId, minTime := p.minTime,
    maxTime := p.maxTime, fileSizeBytes := p.fileSizeBytes,
    rowCount := p.rowCount, compactionLevel := targetLevel }

/-- The identifiers a catalog assigns to a commit's `create` list: consecutive
fresh identifiers, one per created file, in list order. -/
def Catalog.assignedIds (c : Catalog) (create : List ParquetFileParams) :
    List ParquetFileId :=
  (List.range create.length).map fun i : Nat => { id := c.nextId + (i : Int) }

/-- Modelled from the spec: the Scheduler applies a `CommitUpdate` to the
catalog as one indivisible transaction — in a single step it removes the
`delete`d and `upgrade`d originals, re-adds the upgraded files at the target
level, and adds the created files with freshly assigned identifiers at the
target level, returning those identifiers in `create` order.  Missing source:
the `compactor_scheduler` crate. -/
def Catalog.applyCommitUpdate (c : Catalog) (u : CommitUpdate) :
    Catalog × List ParquetFileId :=
  let removed := c.files.filter fun f =>
    !(u.delete.any fun d => d.id == f.id) && !(u.upgrade.any fun g => g.id == f.id)
  let upgraded := u.upgrade.map fun f => { f with compactionLevel := u.targetLevel }
  let ids := c.assignedIds u.create
  let created := (u.create.zip ids).map fun pi => pi.1.withId pi.2 u.targetLevel
  ({ files := removed ++ upgraded ++ created,
     nextId := c.nextId + u.create.length }, ids)

/-- Modelled from the spec: a Scheduler backed by a catalog — an `Update`
commit status is applied atomically and answered with
`CreatedParquetFiles(ids)`.  Missing source: the `compactor_scheduler`
crate. -/
def Catalog.scheduler (c : Catalog) : Scheduler := fun req =>
  match req.status with
  | .Update u => .ok (.CreatedParquetFiles (c.applyCommitUpdate u).2)

/-! ## File split planner
(`compactor2/src/components/files_split/all_at_once_non_overlap_split.rs`) -/

/-- Rust `AllAtOnceNonOverlapSplit::apply`: the trivial "compact everything"
strategy returns `(files, vec![])`, ignoring the target level. -/
def AllAtOnceNonOverlapSplit.apply (files : List ParquetFile)
    (_targetLevel : CompactionLevel) : List ParquetFile × List ParquetFile :=
  (files, [])

/-! ## Partition stream (`compactor/src/components/partition_stream/once.rs`) -/

/-- Modelled from the spec: a `PartitionsSource` (the trait is not among the
available sources) — `fetch()` returns a sequence of `CompactionJob`s, async,
and may fail as a whole; `none` models a failed fetch.  A fixed deterministic
source answers every fetch with the same value. -/
structure PartitionsSource where
  fetch : Option (List CompactionJob)

/-- Rust `OncePartititionStream::stream`: the stream is
`stream::once(async { stream::iter(source.fetch().await) }).flatten()` — a
one-element outer stream holding the fetched jobs, flattened.  A failed fetch
contributes no items (spec §4.1: fetch failure is all-or-nothing per
iteration).  Each call clones the `Arc`ed source and fetches afresh; the
result is a pure function of the source, so the call index is irrelevant. -/
def OncePartititionStream.stream (source : PartitionsSource) : List CompactionJob :=
  match source.fetch with
  | some jobs => [jobs].flatten
  | none => []

/-! ## Partition-done sink (`compactor/src/components/partition_done_sink/mod.rs`)

The sources hold the `PartitionDoneSink` trait (whose `record` "should retry")
and its blanket implementation for `Arc<T>`; the concrete retrying
implementations live outside the available sources and are modelled from the
specification (§4.5). -/

/-- A backing store for outcome recording, indexed by attempt number: attempt
`i` either records durably (`ok`) or fails transiently (`error`). -/
def RecordStore : Type :=
  Nat → Except DynError Unit

/-- Modelled from the spec: the bounded internal retry loop of a
`PartitionDoneSink::record` implementation — try the store; on success stop
(one durable recording), on failure retry while fuel remains, surfacing the
last error once the budget is exhausted.  Returns the outcome together with
the number of durable recordings made.  Missing source: the concrete retrying
sink implementations. -/
def retryLoop (store : RecordStore) : Nat → Nat → Except DynError Unit × Nat
  | attempt, fuel =>
    match store attempt with
    | .ok _ => (.ok (), 1)
    | .error e =>
      match fuel with
      | 0 => (.error e, 0)
      | f + 1 => retryLoop store (attempt + 1) f

/-- Modelled from the spec: `record(partition, outcome)` with an internal
bounded retry budget — up to `budget` retries after the first attempt.
Missing source: the concrete retrying sink implementations. -/
def PartitionDoneSink.record (store : RecordStore) (budget : Nat) :
    Except DynError Unit × Nat :=
  retryLoop store 0 budget

/-- A backing store that fails transiently on the first `n` attempts and
succeeds from attempt `n` on. -/
def failsThenSucceeds (n : Nat) : RecordStore := fun i =>
  if i < n then .error { code := 0 } else .ok ()

/-- A `PartitionDoneSink` trait object, as seen through `record`: a function
of the partition and the job outcome. -/
structure SinkImpl where
  record : PartitionId → Except DynError Unit → Except DynError Unit

/-- The blanket `impl<T> PartitionDoneSink for Arc<T>`:
`self.as_ref().record(partition, res).await` — forward to the inner sink and
return its result.  The second component is the list of `(partition, res)`
calls made on the inner sink. -/
def arcRecord (inner : SinkImpl) (partition : PartitionId)
    (res : Except DynError Unit) :
    Except DynError Unit × List (PartitionId × Except DynError Unit) :=
  (inner.record partition res, [(partition, res)])

/-! ## Concrete values used by the witnesses -/

/-- A scheduler that answers every request with `Ack`. -/
def ackScheduler : Scheduler := fun _ => .ok .Ack

/-- A scheduler that fails every request with an opaque error. -/
def errScheduler : Scheduler := fun _ => .error { code := 7 }

/-- A sample partition. -/
def samplePartition : PartitionId := { id := 1 }

/-- A sample file `A[0,10]@Initial` on the sample partition. -/
def sampleFileA : ParquetFile :=
  { id := { id := 1 }, partitionId := samplePartition, minTime := 0, maxTime := 10,
    fileSizeBytes := 100, rowCount := 10, compactionLevel := .Initial }

/-- A sample file `B[5,15]@Initial` on the sample partition. -/
def sampleFileB : ParquetFile :=
  { id := { id := 2 }, partitionId := samplePartition, minTime := 5, maxTime := 15,
    fileSizeBytes := 200, rowCount := 20, compactionLevel := .Initial }

/-- A sample file `C[20,30]@Initial` on the sample partition. -/
def sampleFileC : ParquetFile :=
  { id := { id := 3 }, partitionId := samplePartition, minTime := 20, maxTime := 30,
    fileSizeBytes := 300, rowCount := 30, compactionLevel := .Initial }

/-- Sample parameters `D[0,15]` for a file produced by merging `A` and `B`. -/
def sampleParamsD : ParquetFileParams :=
  { partitionId := samplePartition, minTime := 0, maxTime := 15,
    fileSizeBytes := 250, rowCount := 30, compactionLevel := .FileNonOverlapped }

/-- A sample catalog holding files `A`, `B`, `C`, next identifier 4. -/
def sampleCatalog : Catalog :=
  { files := [sampleFileA, sampleFileB, sampleFileC], nextId := 4 }

/-! ## Claims -/

/-- C1: if the Scheduler answers a submitted commit update with the
`Acknowledged` (`Ack`) variant, `CommitToScheduler::commit` hits
`unreachable!` — a fatal, unrecoverable abort, never a returned recoverable
error — and `commit` returns normally only when the response is
`CreatedParquetFiles`. -/
theorem commit_ack_is_fatal (scheduler : Scheduler) (partitionId : PartitionId)
    (delete upgrade : List ParquetFile) (create : List ParquetFileParams)
    (targetLevel : CompactionLevel) :
    (scheduler (commitRequest partitionId delete upgrade create targetLevel) = .ok .Ack →
      CommitToScheduler.commit scheduler partitionId delete upgrade create targetLevel
        = .fatal) ∧
    (∀ ids,
      CommitToScheduler.commit scheduler partitionId delete upgrade create targetLevel
          = .ok ids →
      scheduler (commitRequest partitionId delete upgrade create targetLevel)
        = .ok (.CreatedParquetFiles ids)) := by
  unfold CommitToScheduler.commit commitProg
  constructor
  · intro h
    simp [SchedulerProg.run, h]
  · intro ids h
    revert h
    rcases hresp : scheduler (commitRequest partitionId delete upgrade create targetLevel)
      with e | resp
    · simp [SchedulerProg.run, hresp]
    · cases resp <;> simp [SchedulerProg.run, hresp]

/-- Witness for C1: run against a concrete always-`Ack` scheduler, the commit
of empty sets on the sample partition aborts fatally. -/
theorem commit_ack_is_fatal_witness :
    CommitToScheduler.commit ackScheduler samplePartition [] [] [] .Initial = .fatal :=
  (commit_ack_is_fatal ackScheduler samplePartition [] [] [] .Initial).1 rfl

/-- C4: `commit` constructs exactly one `CommitUpdate`, submits exactly one
scheduler request carrying it, and, if the scheduler returns an error,
propagates that error unchanged with no further scheduler call. -/
theorem commit_single_call (scheduler : Scheduler) (partitionId : PartitionId)
    (delete upgrade : List ParquetFile) (create : List ParquetFileParams)
    (targetLevel : CompactionLevel) :
    (commitProg partitionId delete upgrade create targetLevel).calls scheduler
      = [commitRequest partitionId delete upgrade create targetLevel] ∧
    (commitRequest partitionId delete upgrade create targetLevel).status
      = .Update (CommitUpdate.new partitionId delete upgrade create targetLevel) ∧
    (∀ e, scheduler (commitRequest partitionId delete upgrade create targetLevel)
          = .error e →
      CommitToScheduler.commit scheduler partitionId delete upgrade create targetLevel
        = .err e) := by
  refine ⟨?_, rfl, ?_⟩
  · unfold commitProg
    rcases hresp : scheduler (commitRequest partitionId delete upgrade create targetLevel)
      with e | resp
    · simp [SchedulerProg.calls, hresp]
    · cases resp <;> simp [SchedulerProg.calls, hresp]
  · intro e h
    unfold CommitToScheduler.commit commitProg
    simp [SchedulerProg.run, h]

/-- Witness for C4: against a concrete always-failing scheduler, commit on the
sample partition makes the single expected call and surfaces the error
unchanged. -/
theorem commit_single_call_witness :
    (commitProg samplePartition [] [] [] .Initial).calls errScheduler
        = [commitRequest samplePartition [] [] [] .Initial] ∧
    CommitToScheduler.commit errScheduler samplePartition [] [] [] .Initial
      = .err { code := 7 } :=
  ⟨(commit_single_call errScheduler samplePartition [] [] [] .Initial).1,
   (commit_single_call errScheduler samplePartition [] [] [] .Initial).2.2
     { code := 7 } rfl⟩

/-- C6: the trivial "compact everything" strategy returns exactly
`(files, [])` — the must-rewrite output is the input unchanged and the
can-promote output is empty, for every input and every target level. -/
theorem allAtOnce_apply_eq (files : List ParquetFile) (targetLevel : CompactionLevel) :
    AllAtOnceNonOverlapSplit.apply files targetLevel = (files, []) := rfl

/-- C5: `apply` partitions its input exactly — concatenating the two outputs
gives back the input, every file's multiplicity is preserved across the two
outputs (none dropped, none duplicated), no file lies in both outputs, and
empty input yields two empty outputs. -/
theorem allAtOnce_partition_law (files : List ParquetFile)
    (targetLevel : CompactionLevel) :
    (AllAtOnceNonOverlapSplit.apply files targetLevel).1
        ++ (AllAtOnceNonOverlapSplit.apply files targetLevel).2 = files ∧
    (∀ f : ParquetFile,
      ((AllAtOnceNonOverlapSplit.apply files targetLevel).1.count f
          + (AllAtOnceNonOverlapSplit.apply files targetLevel).2.count f
        = files.count f) ∧
      ¬(f ∈ (AllAtOnceNonOverlapSplit.apply files targetLevel).1 ∧
        f ∈ (AllAtOnceNonOverlapSplit.apply files targetLevel).2)) ∧
    AllAtOnceNonOverlapSplit.apply [] targetLevel = ([], []) := by
  refine ⟨by simp [AllAtOnceNonOverlapSplit.apply], fun f => ⟨?_, ?_⟩, rfl⟩
  · simp [AllAtOnceNonOverlapSplit.apply]
  · simp [AllAtOnceNonOverlapSplit.apply]

/-- Witness for C5: the partition law evaluated on the concrete three-file
input at level `FileNonOverlapped`. -/
theorem allAtOnce_partition_law_witness :
    (AllAtOnceNonOverlapSplit.apply [sampleFileA, sampleFileB, sampleFileC]
          .FileNonOverlapped).1
        ++ (AllAtOnceNonOverlapSplit.apply [sampleFileA, sampleFileB, sampleFileC]
          .FileNonOverlapped).2
      = [sampleFileA, sampleFileB, sampleFileC] :=
  (allAtOnce_partition_law [sampleFileA, sampleFileB, sampleFileC]
    .FileNonOverlapped).1

/-- The `n`-th call to `stream()` on a `OncePartititionStream`: each call
clones the shared source and traverses it afresh, holding no cursor of its
own, so every call is the same pure function of the source. -/
def OncePartititionStream.streamCall (source : PartitionsSource) (_callIndex : Nat) :
    List CompactionJob :=
  OncePartititionStream.stream source

/-- C7: backed by a fixed deterministic source, `stream()` yields exactly the
source's job sequence in the source's order, and any two calls yield the
identical ordered sequence. -/
theorem once_stream_preserves_source (source : PartitionsSource)
    (jobs : List CompactionJob) (h : source.fetch = some jobs) :
    OncePartititionStream.stream source = jobs ∧
    ∀ n m : Nat, OncePartititionStream.streamCall source n
      = OncePartititionStream.streamCall source m := by
  refine ⟨?_, fun n m => rfl⟩
  simp [OncePartititionStream.stream, h]

/-- Witness for C7: a concrete source with partitions 1, 3, 2 (the order of
the Rust unit test) streams exactly that sequence, twice identically. -/
theorem once_stream_preserves_source_witness :
    OncePartititionStream.stream
        { fetch := some [CompactionJob.new { id := 1 }, CompactionJob.new { id := 3 },
                         CompactionJob.new { id := 2 }] }
      = [CompactionJob.new { id := 1 }, CompactionJob.new { id := 3 },
         CompactionJob.new { id := 2 }] :=
  (once_stream_preserves_source
    { fetch := some [CompactionJob.new { id := 1 }, CompactionJob.new { id := 3 },
                     CompactionJob.new { id := 2 }] }
    [CompactionJob.new { id := 1 }, CompactionJob.new { id := 3 },
     CompactionJob.new { id := 2 }] rfl).1

/-- C8: when the source's fetch fails, that `stream()` call yields no items at
all.  The element type of the stream is `CompactionJob`, so a fetch failure
cannot be surfaced as a per-item error value in the yielded sequence. -/
theorem once_stream_fetch_failure_yields_nothing (source : PartitionsSource)
    (h : source.fetch = none) :
    OncePartititionStream.stream source = [] := by
  simp [OncePartititionStream.stream, h]

/-- Witness for C8: a concrete source whose fetch fails streams the empty
sequence. -/
theorem once_stream_fetch_failure_yields_nothing_witness :
    OncePartititionStream.stream { fetch := none } = [] :=
  once_stream_fetch_failure_yields_nothing { fetch := none } rfl

/-- The retry loop succeeds with exactly one durable recording whenever the
store stops failing within the remaining fuel. -/
theorem retryLoop_failsThenSucceeds (fuel : Nat) :
    ∀ attempt n : Nat, n ≤ attempt + fuel →
      retryLoop (failsThenSucceeds n) attempt fuel = (.ok (), 1) := by
  induction fuel with
  | zero =>
    intro attempt n h
    unfold retryLoop failsThenSucceeds
    simp at h
    simp [Nat.not_lt.mpr h]
  | succ f ih =>
    intro attempt n h
    unfold retryLoop
    by_cases hlt : attempt < n
    · have hstore : failsThenSucceeds n attempt = .error { code := 0 } := by
        simp [failsThenSucceeds, hlt]
      rw [hstore]
      exact ih (attempt + 1) n (by omega)
    · have hstore : failsThenSucceeds n attempt = .ok () := by
        simp [failsThenSucceeds, hlt]
      rw [hstore]

/-- C9: for a backing store that fails `n` times and then succeeds, with `n`
within the retry budget, `record` returns success and exactly one final
outcome is durably recorded; no transient failure is surfaced. -/
theorem record_retries_transient (n budget : Nat) (h : n ≤ budget) :
    PartitionDoneSink.record (failsThenSucceeds n) budget = (.ok (), 1) :=
  retryLoop_failsThenSucceeds budget 0 n (by omega)

/-- Witness for C9: a store failing twice with a retry budget of three records
successfully, exactly once. -/
theorem record_retries_transient_witness :
    PartitionDoneSink.record (failsThenSucceeds 2) 3 = (.ok (), 1) :=
  record_retries_transient 2 3 (by decide)

/-- C10: the blanket `PartitionDoneSink` implementation for `Arc<T>` is a
transparent wrapper — for every inner sink, partition and outcome it invokes
the inner sink's `record` exactly once with the identical arguments and
returns the inner result unchanged, so it is observationally equal to the
inner sink. -/
theorem arc_record_transparent (inner : SinkImpl) (partition : PartitionId)
    (res : Except DynError Unit) :
    (arcRecord inner partition res).1 = inner.record partition res ∧
    (arcRecord inner partition res).2 = [(partition, res)] :=
  ⟨rfl, rfl⟩

/-- The catalog assigns as many identifiers as there are files to create. -/
theorem Catalog.assignedIds_length (c : Catalog) (create : List ParquetFileParams) :
    (c.assignedIds create).length = create.length := by
  rw [Catalog.assignedIds, List.length_map, List.length_range]

/-- The identifier assigned at position `i` is `nextId + i`. -/
theorem Catalog.assignedIds_getElem (c : Catalog) (create : List ParquetFileParams)
    (i : Nat) (h : i < (c.assignedIds create).length) :
    (c.assignedIds create)[i] = { id := c.nextId + i } := by
  rw [Catalog.assignedIds_length] at h
  simp only [Catalog.assignedIds, List.getElem_map, List.getElem_range]

/-- Membership in the created segment of an applied commit: exactly the files
built from the `create` parameters with their positionally assigned fresh
identifiers, at the target level. -/
theorem mem_created_iff (c : Catalog) (create : List ParquetFileParams)
    (targetLevel : CompactionLevel) (f : ParquetFile) :
    f ∈ (create.zip (c.assignedIds create)).map
        (fun pi => pi.1.withId pi.2 targetLevel) ↔
      ∃ i : Nat, ∃ hi : i < create.length,
        (create[i]).withId { id := c.nextId + i } targetLevel = f := by
  rw [List.mem_iff_getElem]
  constructor
  · rintro ⟨i, hi, hEq⟩
    have hi' : i < create.length := by
      simpa [Catalog.assignedIds_length] using hi
    refine ⟨i, hi', ?_⟩
    rw [← hEq]
    simp [List.getElem_zip, Catalog.assignedIds_getElem]
  · rintro ⟨i, hi, hEq⟩
    refine ⟨i, ?_, ?_⟩
    · simpa [Catalog.assignedIds_length] using hi
    · rw [← hEq]
      simp [List.getElem_zip, Catalog.assignedIds_getElem]

/-- C2: a commit against a catalog-backed scheduler succeeds, and the
partition's post-commit file set — produced by the one-step (indivisible)
`applyCommitUpdate` transition, so no intermediate state exists — consists of
exactly: the original files minus those deleted or upgraded, the upgraded
originals at the new level, and the newly created files with their assigned
identifiers. -/
theorem commit_atomic (c : Catalog) (partitionId : PartitionId)
    (delete upgrade : List ParquetFile) (create : List ParquetFileParams)
    (targetLevel : CompactionLevel) :
    CommitToScheduler.commit c.scheduler partitionId delete upgrade create targetLevel
      = .ok (c.assignedIds create) ∧
    ∀ f : ParquetFile,
      f ∈ (c.applyCommitUpdate
            (CommitUpdate.new partitionId delete upgrade create targetLevel)).1.files ↔
        (f ∈ c.files ∧ (∀ d ∈ delete, d.id ≠ f.id) ∧ (∀ g ∈ upgrade, g.id ≠ f.id))
        ∨ (∃ g ∈ upgrade, { g with compactionLevel := targetLevel } = f)
        ∨ (∃ i : Nat, ∃ hi : i < create.length,
            (create[i]).withId { id := c.nextId + i } targetLevel = f) := by
  constructor
  · rfl
  · intro f
    simp only [Catalog.applyCommitUpdate, List.mem_append, CommitUpdate.new]
    rw [or_assoc]
    apply or_congr
    · simp [List.mem_filter, List.any_eq_true]
    · apply or_congr
      · simp [List.mem_map]
      · exact mem_created_iff c create targetLevel f

/-- Witness for C2: committing `delete={A,B}, upgrade={C}, create={D}` at
target `FileNonOverlapped` on the sample catalog succeeds, and the merged file
`D` with freshly assigned identifier 4 is in the post-commit file set. -/
theorem commit_atomic_witness :
    CommitToScheduler.commit sampleCatalog.scheduler samplePartition
        [sampleFileA, sampleFileB] [sampleFileC] [sampleParamsD] .FileNonOverlapped
      = .ok (sampleCatalog.assignedIds [sampleParamsD]) ∧
    sampleParamsD.withId { id := 4 } .FileNonOverlapped
      ∈ (sampleCatalog.applyCommitUpdate
          (CommitUpdate.new samplePartition [sampleFileA, sampleFileB] [sampleFileC]
            [sampleParamsD] .FileNonOverlapped)).1.files := by
  refine ⟨(commit_atomic sampleCatalog samplePartition [sampleFileA, sampleFileB]
    [sampleFileC] [sampleParamsD] .FileNonOverlapped).1, ?_⟩
  refine ((commit_atomic sampleCatalog samplePartition [sampleFileA, sampleFileB]
    [sampleFileC] [sampleParamsD] .FileNonOverlapped).2 _).mpr ?_
  exact Or.inr (Or.inr ⟨0, by decide, rfl⟩)

/-- C3: the identifier list a successful commit returns has the same length
as the submitted `create` list, and the identifier at each position is the one
assigned to the `ParquetFileParams` at the same position: the post-commit
catalog holds, for every position `i`, the file built from `create[i]` with
the returned identifier at position `i`. -/
theorem commit_ids_correspond (c : Catalog) (partitionId : PartitionId)
    (delete upgrade : List ParquetFile) (create : List ParquetFileParams)
    (targetLevel : CompactionLevel) :
    CommitToScheduler.commit c.scheduler partitionId delete upgrade create targetLevel
      = .ok (c.assignedIds create) ∧
    (c.assignedIds create).length = create.length ∧
    ∀ i : Nat, ∀ hi : i < create.length,
      (c.assignedIds create).get ⟨i, by rw [Catalog.assignedIds_length]; exact hi⟩
          = { id := c.nextId + i } ∧
      (create[i]).withId { id := c.nextId + i } targetLevel
        ∈ (c.applyCommitUpdate
            (CommitUpdate.new partitionId delete upgrade create targetLevel)).1.files := by
  refine ⟨rfl, Catalog.assignedIds_length c create, fun i hi => ⟨?_, ?_⟩⟩
  · rw [List.get_eq_getElem]
    exact Catalog.assignedIds_getElem c create i
      (by rw [Catalog.assignedIds_length]; exact hi)
  · simp only [Catalog.applyCommitUpdate, List.mem_append, CommitUpdate.new]
    exact Or.inr ((mem_created_iff c create targetLevel _).mpr ⟨i, hi, rfl⟩)

/-- Witness for C3: committing the single-element create list `[D]` on the
sample catalog returns the one-element identifier list `[4]`, and the file
built from `D` with identifier 4 is in the post-commit catalog. -/
theorem commit_ids_correspond_witness :
    (sampleCatalog.assignedIds [sampleParamsD]).length = 1 ∧
    sampleParamsD.withId { id := 4 } .FileNonOverlapped
      ∈ (sampleCatalog.applyCommitUpdate
          (CommitUpdate.new samplePartition [] [] [sampleParamsD]
            .FileNonOverlapped)).1.files :=
  ⟨(commit_ids_correspond sampleCatalog samplePartition [] [] [sampleParamsD]
      .FileNonOverlapped).2.1,
   ((commit_ids_correspond sampleCatalog samplePartition [] [] [sampleParamsD]
      .FileNonOverlapped).2.2 0 (by decide)).2⟩

end IoxCompactor
